import Mathlib

/-!
Shallow embedding of the board-repair-tracker core: the status model and
authorization policy (src/utils/status.ts, src/lib/auth), the transfer
creation and status-update operations (src/pages/Dashboard.tsx), and the
role-scoped read path (src/pages/AllTransfers.tsx, src/pages/Dashboard.tsx).
Statuses and roles are strings, as in the source, which compares them with
string equality throughout. The persistence store is modelled as explicit
state: two lists of records, with create modelled as append and update as a
keyed merge. Store-generated values (fresh ids, the current date, timestamps)
are passed in as parameters, mirroring the Date.now and toISOString calls at
the call sites.
-/

namespace BoardRepair

/-- User record from src/types.ts. The role field is one of "Admin",
"HQ Staff", "Technician" in the source union type; it is kept as a string
here because the authorization code branches on string comparisons. -/
structure User where
  id : String
  email : String
  name : String
  role : String
  branch : String
  created_at : String
  updated_at : String
deriving Repr, DecidableEq

/-- RepairTransfer record from src/types.ts. Optional fields of the source
interface become Option; repair_cost (a JS number used only as data here,
never in arithmetic relevant to the claims) is modelled as Rat. -/
structure RepairTransfer where
  id : String
  branch_from : String
  branch_to : String
  customer_name : String
  phone_model : String
  imei : String
  passcode : Option String
  problem_description : String
  staff_receive_name : String
  date_from_branch : String
  staff_send_name : Option String
  date_sent_to_branch : Option String
  technician_receive_name : Option String
  date_received_by_tech : Option String
  date_repair_done : Option String
  repair_cost : Option Rat
  status : String
  remarks : Option String
  updated_by : String
  updated_at : String
  created_at : String
  user_id : String
deriving Repr, DecidableEq

/-- StatusLog record from src/types.ts; old_status is null only on the
creation entry. -/
structure StatusLog where
  id : String
  transfer_id : String
  old_status : Option String
  new_status : String
  remarks : Option String
  updated_by : String
  updated_at : String
  user_id : String
deriving Repr, DecidableEq

/-- NewTransferForm from src/types.ts: all fields are plain strings in the
form state (passcode may be left empty). -/
structure NewTransferForm where
  customer_name : String
  phone_model : String
  imei : String
  passcode : String
  problem_description : String
  staff_receive_name : String
  date_from_branch : String
deriving Repr, DecidableEq

/-- StatusUpdateForm from src/types.ts, as initialised by TransferDetail:
the string fields start as empty strings and repair_cost as undefined. -/
structure StatusUpdateForm where
  status : String
  remarks : String
  technician_receive_name : String
  date_received_by_tech : String
  date_repair_done : String
  repair_cost : Option Rat
deriving Repr, DecidableEq

/-- The persistence store: the two collections the workflow writes. -/
structure DB where
  repairTransfers : List RepairTransfer
  statusLogs : List StatusLog
deriving Repr, DecidableEq

namespace Status

/-- STATUS_ORDER from src/utils/status.ts. -/
def STATUS_ORDER : List String :=
  ["Pending", "Received", "In Repair", "Done", "Returned"]

/-- getNextStatus from src/utils/status.ts. The source uses Array.indexOf,
which yields -1 for an unknown status; List.indexOf yields the length of the
list in that case, so the first disjunct of the guard is the -1 test. -/
def getNextStatus (currentStatus : String) : Option String :=
  let currentIndex := STATUS_ORDER.indexOf currentStatus
  if currentIndex = STATUS_ORDER.length ∨ currentIndex = STATUS_ORDER.length - 1 then
    none
  else
    STATUS_ORDER.get? (currentIndex + 1)

/-- canUpdateStatus from src/utils/status.ts, keyed by role and current
status: HQ Staff never updates, Technicians update everything except
Pending, Admin updates anything, all other role strings are refused. -/
def canUpdateStatus (userRole : String) (currentStatus : String) : Bool :=
  if userRole = "HQ Staff" then
    false
  else if userRole = "Technician" then
    currentStatus != "Pending"
  else if userRole = "Admin" then
    true
  else
    false

end Status

namespace Auth

/-- canUpdateStatus from src/lib/auth, keyed by role and branch match: Admin
always, HQ Staff when the record leaves the hardcoded "HQ" branch,
Technicians when the record is routed to their branch. The user argument is
optional as in the source (null yields false). -/
def canUpdateStatus (user : Option User) (transfer : RepairTransfer) : Bool :=
  match user with
  | none => false
  | some u =>
    if u.role = "Admin" then true
    else if u.role = "HQ Staff" ∧ transfer.branch_from = "HQ" then true
    else if u.role = "Technician" ∧ transfer.branch_to = u.branch then true
    else false

end Auth

/-- The JavaScript String.prototype.trim builtin, modelled executably:
whitespace is stripped from both ends of the character sequence. -/
def jsTrim (s : String) : String :=
  ⟨((s.data.dropWhile Char.isWhitespace).reverse.dropWhile Char.isWhitespace).reverse⟩

/-- validateForm from src/pages/Dashboard.tsx (NewTransfer), as the list of
field names given an error message: each required text field must be
non-empty after trimming, date_from_branch must be truthy (non-empty), and
the imei must additionally reach length 15 (the length test is on the raw,
untrimmed string, as in the source). -/
def formErrors (formData : NewTransferForm) : List String :=
  (if jsTrim formData.customer_name = "" then ["customer_name"] else []) ++
  (if jsTrim formData.phone_model = "" then ["phone_model"] else []) ++
  (if jsTrim formData.imei = "" then ["imei"]
   else if formData.imei.length < 15 then ["imei"] else []) ++
  (if jsTrim formData.problem_description = "" then ["problem_description"] else []) ++
  (if jsTrim formData.staff_receive_name = "" then ["staff_receive_name"] else []) ++
  (if formData.date_from_branch = "" then ["date_from_branch"] else [])

/-- validateForm returns true when no field produced an error. -/
def validateForm (formData : NewTransferForm) : Bool :=
  formErrors formData = []

/-- The RepairTransfer record built by handleSubmit in NewTransfer
(src/pages/Dashboard.tsx): branch_to is the fixed repair hub, passcode
falls back to null when empty, the outbound fields come from the acting
user and the current date, and the status starts at Pending. The fresh id,
current date and the store-generated timestamp are parameters. -/
def newTransferRecord (user : User) (formData : NewTransferForm)
    (transferId today now : String) : RepairTransfer :=
  { id := transferId
    branch_from := user.branch
    branch_to := "Kluang"
    customer_name := formData.customer_name
    phone_model := formData.phone_model
    imei := formData.imei
    passcode := if formData.passcode = "" then none else some formData.passcode
    problem_description := formData.problem_description
    staff_receive_name := formData.staff_receive_name
    date_from_branch := formData.date_from_branch
    staff_send_name := some user.name
    date_sent_to_branch := some today
    technician_receive_name := none
    date_received_by_tech := none
    date_repair_done := none
    repair_cost := none
    status := "Pending"
    remarks := none
    updated_by := user.name
    updated_at := now
    created_at := now
    user_id := user.id }

/-- The initial StatusLog entry created by handleSubmit in NewTransfer:
old_status null, new_status Pending, remarks "Transfer created". -/
def newTransferLog (user : User) (transferId logId now : String) : StatusLog :=
  { id := logId
    transfer_id := transferId
    old_status := none
    new_status := "Pending"
    remarks := some "Transfer created"
    updated_by := user.name
    updated_at := now
    user_id := user.id }

/-- handleSubmit from NewTransfer (src/pages/Dashboard.tsx): when validation
fails the submit returns before touching the store; otherwise it creates the
transfer record and then the initial status log entry. -/
def handleSubmit (user : User) (formData : NewTransferForm)
    (transferId logId today now : String) (db : DB) : DB :=
  if validateForm formData then
    { repairTransfers := db.repairTransfers ++ [newTransferRecord user formData transferId today now]
      statusLogs := db.statusLogs ++ [newTransferLog user transferId logId now] }
  else
    db

/-- The partial update object updateData built by handleStatusUpdate in
TransferDetail (src/pages/Dashboard.tsx). A none field models a key that is
absent from (or undefined in) the partial update and therefore left
untouched by the keyed merge. -/
structure TransferUpdateData where
  status : String
  remarks : Option String
  updated_by : String
  updated_at : String
  technician_receive_name : Option String
  date_received_by_tech : Option String
  date_repair_done : Option String
  repair_cost : Option Rat
deriving Repr, DecidableEq

/-- buildUpdateData mirrors the updateData construction in
handleStatusUpdate: remarks falls back to the current record remarks when
the form remarks is empty; the Received fields are included only when the
form technician name is non-empty, with the date defaulting to today; the
Done fields are included only when the form repair date is non-empty, the
cost only when defined. -/
def buildUpdateData (transfer : RepairTransfer) (updateForm : StatusUpdateForm)
    (user : User) (today now : String) : TransferUpdateData :=
  { status := updateForm.status
    remarks := if updateForm.remarks = "" then transfer.remarks else some updateForm.remarks
    updated_by := user.name
    updated_at := now
    technician_receive_name :=
      if updateForm.status = "Received" ∧ updateForm.technician_receive_name ≠ "" then
        some updateForm.technician_receive_name
      else none
    date_received_by_tech :=
      if updateForm.status = "Received" ∧ updateForm.technician_receive_name ≠ "" then
        some (if updateForm.date_received_by_tech = "" then today
              else updateForm.date_received_by_tech)
      else none
    date_repair_done :=
      if updateForm.status = "Done" ∧ updateForm.date_repair_done ≠ "" then
        some updateForm.date_repair_done
      else none
    repair_cost :=
      if updateForm.status = "Done" ∧ updateForm.date_repair_done ≠ "" then
        updateForm.repair_cost
      else none }

/-- The keyed merge performed by the store update call: every field present
in the partial update overwrites the stored value, every absent field keeps
it. -/
def applyUpdateData (t : RepairTransfer) (u : TransferUpdateData) : RepairTransfer :=
  { t with
    status := u.status
    remarks := match u.remarks with
      | some r => some r
      | none => t.remarks
    updated_by := u.updated_by
    updated_at := u.updated_at
    technician_receive_name := match u.technician_receive_name with
      | some v => some v
      | none => t.technician_receive_name
    date_received_by_tech := match u.date_received_by_tech with
      | some v => some v
      | none => t.date_received_by_tech
    date_repair_done := match u.date_repair_done with
      | some v => some v
      | none => t.date_repair_done
    repair_cost := match u.repair_cost with
      | some v => some v
      | none => t.repair_cost }

/-- The record state after handleStatusUpdate applies its partial update to
the loaded transfer. -/
def applyStatusUpdate (transfer : RepairTransfer) (updateForm : StatusUpdateForm)
    (user : User) (today now : String) : RepairTransfer :=
  applyUpdateData transfer (buildUpdateData transfer updateForm user today now)

/-- The StatusLog entry created by handleStatusUpdate: old_status is the
pre-update record status, new_status and remarks come from the form, and
updated_by is the acting user name. -/
def statusUpdateLog (user : User) (transfer : RepairTransfer)
    (updateForm : StatusUpdateForm) (logId now : String) : StatusLog :=
  { id := logId
    transfer_id := transfer.id
    old_status := some transfer.status
    new_status := updateForm.status
    remarks := some updateForm.remarks
    updated_by := user.name
    updated_at := now
    user_id := user.id }

/-- handleStatusUpdate from TransferDetail (src/pages/Dashboard.tsx) at
store level: the transfer is the one loaded by id; the partial update built
from it is merged into the stored record with that id, and the log entry is
appended. When no record with the id exists the handler returns without
effect. -/
def handleStatusUpdate (user : User) (transferId : String)
    (updateForm : StatusUpdateForm) (logId today now : String) (db : DB) : DB :=
  match db.repairTransfers.find? (fun t => t.id == transferId) with
  | none => db
  | some transfer =>
      { repairTransfers := db.repairTransfers.map (fun t =>
          if t.id == transferId then
            applyUpdateData t (buildUpdateData transfer updateForm user today now)
          else t)
        statusLogs := db.statusLogs ++ [statusUpdateLog user transfer updateForm logId now] }

/-- loadTransfers from src/pages/AllTransfers.tsx (the same role scoping is
used by loadDashboardData): Admin lists everything, HQ Staff only records
with branch_from equal to their branch, Technicians only records with
branch_to equal to their branch. The orderBy clause sent to the store only
orders the result and is elided here. -/
def loadTransfers (currentUser : User) (db : DB) : List RepairTransfer :=
  if currentUser.role = "Admin" then
    db.repairTransfers
  else if currentUser.role = "HQ Staff" then
    db.repairTransfers.filter (fun t => t.branch_from == currentUser.branch)
  else if currentUser.role = "Technician" then
    db.repairTransfers.filter (fun t => t.branch_to == currentUser.branch)
  else
    []

/-- loadTransferData from TransferDetail (src/pages/Dashboard.tsx): list the
records with the given id, take the first, and return nothing when an HQ
Staff caller is not at its branch_from or a Technician caller is not at its
branch_to. -/
def loadTransferData (currentUser : User) (transferId : String) (db : DB) :
    Option RepairTransfer :=
  match (db.repairTransfers.filter (fun t => t.id == transferId)).head? with
  | none => none
  | some transferData =>
      if currentUser.role = "HQ Staff" ∧ transferData.branch_from ≠ currentUser.branch then
        none
      else if currentUser.role = "Technician" ∧ transferData.branch_to ≠ currentUser.branch then
        none
      else
        some transferData

/-- The read-scoping rule of the spec (section 4.2): Admin sees every
record, HQ Staff only records leaving their branch, Technicians only
records routed to their branch. -/
def visibleTo (currentUser : User) (t : RepairTransfer) : Prop :=
  currentUser.role = "Admin" ∨
  (currentUser.role = "HQ Staff" ∧ t.branch_from = currentUser.branch) ∨
  (currentUser.role = "Technician" ∧ t.branch_to = currentUser.branch)

instance (currentUser : User) (t : RepairTransfer) :
    Decidable (visibleTo currentUser t) := by
  unfold visibleTo
  infer_instance

/-- A sample Admin user for concrete evaluations. -/
def sampleAdmin : User :=
  { id := "u_admin", email := "admin@example.com", name := "Alice"
    role := "Admin", branch := "HQ", created_at := "t0", updated_at := "t0" }

/-- A sample Technician at the Kluang repair hub. -/
def sampleTech : User :=
  { id := "u_tech", email := "tech@example.com", name := "Tina"
    role := "Technician", branch := "Kluang", created_at := "t0", updated_at := "t0" }

/-- A sample HQ Staff user at the HQ branch. -/
def sampleStaff : User :=
  { id := "u_staff", email := "staff@example.com", name := "Siti"
    role := "HQ Staff", branch := "HQ", created_at := "t0", updated_at := "t0" }

/-- A sample pending transfer routed from HQ to Kluang, with no repair
fields populated yet. -/
def samplePending : RepairTransfer :=
  { id := "t1", branch_from := "HQ", branch_to := "Kluang"
    customer_name := "Ali", phone_model := "X1", imei := "123456789012345"
    passcode := none, problem_description := "cracked screen"
    staff_receive_name := "Siti", date_from_branch := "2025-01-01"
    staff_send_name := some "Siti", date_sent_to_branch := some "2025-01-01"
    technician_receive_name := none, date_received_by_tech := none
    date_repair_done := none, repair_cost := none
    status := "Pending", remarks := none
    updated_by := "Siti", updated_at := "ts0", created_at := "ts0"
    user_id := "u_staff" }

/-- A sample valid creation form (imei of length 15). -/
def sampleForm : NewTransferForm :=
  { customer_name := "Ali", phone_model := "X1", imei := "123456789012345"
    passcode := "", problem_description := "cracked screen"
    staff_receive_name := "Siti", date_from_branch := "2025-01-01" }

/-- The sample form with the imei truncated to 14 characters. -/
def sampleFormShortImei : NewTransferForm :=
  { sampleForm with imei := "12345678901234" }

/-- A sample status-update form moving a record to Received with an empty
technician name and empty dates. -/
def sampleReceivedFormNoTech : StatusUpdateForm :=
  { status := "Received", remarks := "", technician_receive_name := ""
    date_received_by_tech := "", date_repair_done := "", repair_cost := none }

/-- A sample status-update form moving a record to Received with a
technician name supplied and the receive date left empty. -/
def sampleReceivedFormBob : StatusUpdateForm :=
  { status := "Received", remarks := "arrived", technician_receive_name := "Bob"
    date_received_by_tech := "", date_repair_done := "", repair_cost := none }

/-- The sample pending transfer carrying a previous non-empty remark. -/
def samplePendingRemarked : RepairTransfer :=
  { samplePending with remarks := some "old note" }

end BoardRepair

namespace BoardRepair

/-- C1: over the five current statuses, the status-keyed canUpdateStatus
returns true for role Admin, false for role HQ Staff, the boolean value of
currentStatus not being Pending for role Technician, and false for every
other role string. -/
theorem C1_canUpdateStatus_policy :
    ∀ s ∈ Status.STATUS_ORDER,
      Status.canUpdateStatus "Admin" s = true ∧
      Status.canUpdateStatus "HQ Staff" s = false ∧
      Status.canUpdateStatus "Technician" s = (s != "Pending") ∧
      ∀ role : String, role ≠ "Admin" → role ≠ "HQ Staff" → role ≠ "Technician" →
        Status.canUpdateStatus role s = false := by
  intro s _hs
  refine ⟨by simp [Status.canUpdateStatus], by simp [Status.canUpdateStatus],
    by simp [Status.canUpdateStatus], ?_⟩
  intro role hA hH hT
  simp [Status.canUpdateStatus, hA, hH, hT]

/-- Witness for C1 at concrete inputs. -/
theorem C1_canUpdateStatus_policy_witness :
    Status.canUpdateStatus "Admin" "Pending" = true ∧
    Status.canUpdateStatus "HQ Staff" "Done" = false ∧
    Status.canUpdateStatus "Technician" "Pending" = false ∧
    Status.canUpdateStatus "Manager" "Done" = false := by
  have h1 := C1_canUpdateStatus_policy "Pending" (by decide)
  have h2 := C1_canUpdateStatus_policy "Done" (by decide)
  refine ⟨h1.1, h2.2.1, ?_, h2.2.2.2 "Manager" (by decide) (by decide) (by decide)⟩
  rw [h1.2.2.1]
  decide

/-- C9: getNextStatus maps each of the four statuses before Returned to the
immediately following status in the order Pending, Received, In Repair,
Done, Returned; it returns none on Returned and none on any string outside
the five-status set. -/
theorem C9_getNextStatus_succ :
    Status.getNextStatus "Pending" = some "Received" ∧
    Status.getNextStatus "Received" = some "In Repair" ∧
    Status.getNextStatus "In Repair" = some "Done" ∧
    Status.getNextStatus "Done" = some "Returned" ∧
    Status.getNextStatus "Returned" = none ∧
    ∀ s : String, s ∉ Status.STATUS_ORDER → Status.getNextStatus s = none := by
  refine ⟨by decide, by decide, by decide, by decide, by decide, ?_⟩
  intro s hs
  have h : Status.STATUS_ORDER.indexOf s = Status.STATUS_ORDER.length :=
    List.indexOf_eq_length.mpr hs
  simp [Status.getNextStatus, h]

/-- Witness for C9 at a status string outside the five-status set. -/
theorem C9_getNextStatus_succ_witness :
    Status.getNextStatus "Cancelled" = none :=
  C9_getNextStatus_succ.2.2.2.2.2 "Cancelled" (by decide)

/-- C4: creation is rejected, with the store untouched, exactly when some
required field is invalid: customer_name, phone_model, problem_description
or staff_receive_name empty after trimming, date_from_branch empty, or imei
empty after trimming or shorter than 15 characters; a valid form always
creates one record and one log entry; the imei boundary sits at length 15. -/
theorem C4_create_validation :
    (∀ f : NewTransferForm,
        validateForm f = false ↔
          (jsTrim f.customer_name = "" ∨ jsTrim f.phone_model = "" ∨
           jsTrim f.imei = "" ∨ f.imei.length < 15 ∨
           jsTrim f.problem_description = "" ∨ jsTrim f.staff_receive_name = "" ∨
           f.date_from_branch = "")) ∧
    (∀ (user : User) (f : NewTransferForm) (tid lid today now : String) (db : DB),
        validateForm f = false → handleSubmit user f tid lid today now db = db) ∧
    (∀ (user : User) (f : NewTransferForm) (tid lid today now : String) (db : DB),
        validateForm f = true →
          (handleSubmit user f tid lid today now db).repairTransfers.length =
            db.repairTransfers.length + 1 ∧
          (handleSubmit user f tid lid today now db).statusLogs.length =
            db.statusLogs.length + 1) ∧
    validateForm sampleFormShortImei = false ∧
    validateForm sampleForm = true := by
  refine ⟨?_, ?_, ?_, by decide, by decide⟩
  · intro f
    by_cases h1 : jsTrim f.customer_name = "" <;>
      by_cases h2 : jsTrim f.phone_model = "" <;>
      by_cases h3 : jsTrim f.imei = "" <;>
      by_cases h4 : f.imei.length < 15 <;>
      by_cases h5 : jsTrim f.problem_description = "" <;>
      by_cases h6 : jsTrim f.staff_receive_name = "" <;>
      by_cases h7 : f.date_from_branch = "" <;>
      simp [validateForm, formErrors, h1, h2, h3, h4, h5, h6, h7]
  · intro user f tid lid today now db h
    simp [handleSubmit, h]
  · intro user f tid lid today now db h
    simp [handleSubmit, h]

/-- Witness for C4 at concrete inputs: the short-imei sample form is
rejected without touching an empty store, and the valid sample form adds
one record. -/
theorem C4_create_validation_witness :
    (validateForm sampleFormShortImei = false ↔
      (jsTrim sampleFormShortImei.customer_name = "" ∨
       jsTrim sampleFormShortImei.phone_model = "" ∨
       jsTrim sampleFormShortImei.imei = "" ∨
       sampleFormShortImei.imei.length < 15 ∨
       jsTrim sampleFormShortImei.problem_description = "" ∨
       jsTrim sampleFormShortImei.staff_receive_name = "" ∨
       sampleFormShortImei.date_from_branch = "")) ∧
    handleSubmit sampleStaff sampleFormShortImei "t9" "l9" "2025-01-02" "ts1" ⟨[], []⟩
      = ⟨[], []⟩ ∧
    (handleSubmit sampleStaff sampleForm "t9" "l9" "2025-01-02" "ts1"
        ⟨[], []⟩).repairTransfers.length = ([] : List RepairTransfer).length + 1 :=
  ⟨C4_create_validation.1 sampleFormShortImei,
   C4_create_validation.2.1 sampleStaff sampleFormShortImei "t9" "l9" "2025-01-02" "ts1"
     ⟨[], []⟩ (by decide),
   (C4_create_validation.2.2.1 sampleStaff sampleForm "t9" "l9" "2025-01-02" "ts1"
     ⟨[], []⟩ (by decide)).1⟩

/-- C3: a successful creation appends exactly the new record, with status
Pending, branch_from the acting user branch, branch_to the fixed Kluang
hub, staff_send_name and updated_by the acting user name,
date_sent_to_branch the current date and the fresh id, and appends exactly
one StatusLog entry for that id, with old_status null, new_status Pending
and remarks "Transfer created". -/
theorem C3_createTransfer_effects
    (user : User) (f : NewTransferForm) (tid lid today now : String) (db : DB)
    (hValid : validateForm f = true)
    (hFreshT : ∀ t ∈ db.repairTransfers, t.id ≠ tid)
    (hFreshL : ∀ e ∈ db.statusLogs, e.transfer_id ≠ tid) :
    (handleSubmit user f tid lid today now db).repairTransfers =
      db.repairTransfers ++ [newTransferRecord user f tid today now] ∧
    (handleSubmit user f tid lid today now db).statusLogs =
      db.statusLogs ++ [newTransferLog user tid lid now] ∧
    (newTransferRecord user f tid today now).id = tid ∧
    (newTransferRecord user f tid today now).status = "Pending" ∧
    (newTransferRecord user f tid today now).branch_from = user.branch ∧
    (newTransferRecord user f tid today now).branch_to = "Kluang" ∧
    (newTransferRecord user f tid today now).staff_send_name = some user.name ∧
    (newTransferRecord user f tid today now).date_sent_to_branch = some today ∧
    (newTransferRecord user f tid today now).updated_by = user.name ∧
    (handleSubmit user f tid lid today now db).repairTransfers.filter
        (fun t => t.id == tid) = [newTransferRecord user f tid today now] ∧
    (newTransferLog user tid lid now).transfer_id = tid ∧
    (newTransferLog user tid lid now).old_status = none ∧
    (newTransferLog user tid lid now).new_status = "Pending" ∧
    (newTransferLog user tid lid now).remarks = some "Transfer created" ∧
    (handleSubmit user f tid lid today now db).statusLogs.filter
        (fun e => e.transfer_id == tid) = [newTransferLog user tid lid now] := by
  have hs : handleSubmit user f tid lid today now db =
      { repairTransfers := db.repairTransfers ++ [newTransferRecord user f tid today now]
        statusLogs := db.statusLogs ++ [newTransferLog user tid lid now] } := by
    simp [handleSubmit, hValid]
  have hfT : db.repairTransfers.filter (fun t => t.id == tid) = [] := by
    rw [List.filter_eq_nil_iff]
    intro a ha
    simp [hFreshT a ha]
  have hfL : db.statusLogs.filter (fun e => e.transfer_id == tid) = [] := by
    rw [List.filter_eq_nil_iff]
    intro a ha
    simp [hFreshL a ha]
  refine ⟨by rw [hs], by rw [hs], rfl, rfl, rfl, rfl, rfl, rfl, rfl, ?_, rfl, rfl, rfl,
    rfl, ?_⟩
  · rw [hs]
    simp [List.filter_append, hfT, newTransferRecord]
  · rw [hs]
    simp [List.filter_append, hfL, newTransferLog]

/-- Witness for C3: creating the sample transfer in an empty store appends
exactly the sample record. -/
theorem C3_createTransfer_effects_witness :
    (handleSubmit sampleStaff sampleForm "t9" "l9" "2025-01-02" "ts1"
        ⟨[], []⟩).repairTransfers
      = [] ++ [newTransferRecord sampleStaff sampleForm "t9" "2025-01-02" "ts1"] :=
  (C3_createTransfer_effects sampleStaff sampleForm "t9" "l9" "2025-01-02" "ts1"
    ⟨[], []⟩ (by decide) (by simp) (by simp)).1

/-- C2 counterexample: an update moving the sample pending record to
Received with an empty technician name leaves date_received_by_tech unset,
so the record does end up in status Received with the date not populated,
against the claim that the date is never left unset. -/
theorem C2_counterexample :
    (applyStatusUpdate samplePending sampleReceivedFormNoTech sampleAdmin
        "2025-02-03" "ts2").status = "Received" ∧
    (applyStatusUpdate samplePending sampleReceivedFormNoTech sampleAdmin
        "2025-02-03" "ts2").date_received_by_tech = none := by
  constructor <;> decide

/-- C2 amended: for every update with newStatus Received in which a
non-empty technician_receive_name is supplied, the record update sets
technician_receive_name to the supplied value and sets
date_received_by_tech, defaulting it to the current date when the supplied
date is empty, and never leaves it unset. -/
theorem C2_received_populates_date
    (transfer : RepairTransfer) (updateForm : StatusUpdateForm)
    (user : User) (today now : String)
    (hStatus : updateForm.status = "Received")
    (hTech : updateForm.technician_receive_name ≠ "") :
    (applyStatusUpdate transfer updateForm user today now).technician_receive_name =
      some updateForm.technician_receive_name ∧
    (applyStatusUpdate transfer updateForm user today now).date_received_by_tech =
      some (if updateForm.date_received_by_tech = "" then today
            else updateForm.date_received_by_tech) ∧
    (applyStatusUpdate transfer updateForm user today now).date_received_by_tech ≠
      none := by
  unfold applyStatusUpdate applyUpdateData buildUpdateData
  simp [hStatus, hTech]

/-- Witness for C2 at concrete inputs: a Received update with technician
Bob and an empty date stamps the current date. -/
theorem C2_received_populates_date_witness :
    (applyStatusUpdate samplePending sampleReceivedFormBob sampleAdmin
        "2025-02-03" "ts2").technician_receive_name =
      some sampleReceivedFormBob.technician_receive_name ∧
    (applyStatusUpdate samplePending sampleReceivedFormBob sampleAdmin
        "2025-02-03" "ts2").date_received_by_tech =
      some (if sampleReceivedFormBob.date_received_by_tech = "" then "2025-02-03"
            else sampleReceivedFormBob.date_received_by_tech) ∧
    (applyStatusUpdate samplePending sampleReceivedFormBob sampleAdmin
        "2025-02-03" "ts2").date_received_by_tech ≠ none :=
  C2_received_populates_date samplePending sampleReceivedFormBob sampleAdmin
    "2025-02-03" "ts2" rfl (by decide)

/-- C7: every successful status update appends one StatusLog entry whose
old_status is the pre-update record status, whose new_status is the chosen
status, whose remarks is the remarks given in the call, and whose
updated_by is the acting user name. -/
theorem C7_update_appends_log
    (user : User) (transferId : String) (updateForm : StatusUpdateForm)
    (lid today now : String) (db : DB) (transfer : RepairTransfer)
    (hFind : db.repairTransfers.find? (fun t => t.id == transferId) = some transfer) :
    (handleStatusUpdate user transferId updateForm lid today now db).statusLogs =
      db.statusLogs ++ [statusUpdateLog user transfer updateForm lid now] ∧
    (statusUpdateLog user transfer updateForm lid now).old_status =
      some transfer.status ∧
    (statusUpdateLog user transfer updateForm lid now).new_status =
      updateForm.status ∧
    (statusUpdateLog user transfer updateForm lid now).remarks =
      some updateForm.remarks ∧
    (statusUpdateLog user transfer updateForm lid now).updated_by = user.name := by
  refine ⟨?_, rfl, rfl, rfl, rfl⟩
  simp [handleStatusUpdate, hFind]

/-- Witness for C7: updating the sample pending record in a one-record
store appends exactly the expected log entry. -/
theorem C7_update_appends_log_witness :
    (handleStatusUpdate sampleAdmin "t1" sampleReceivedFormBob "l2" "2025-02-03" "ts2"
        ⟨[samplePending], []⟩).statusLogs =
      [] ++ [statusUpdateLog sampleAdmin samplePending sampleReceivedFormBob "l2" "ts2"] :=
  (C7_update_appends_log sampleAdmin "t1" sampleReceivedFormBob "l2" "2025-02-03" "ts2"
    ⟨[samplePending], []⟩ samplePending (by decide)).1

/-- C8: a status update never changes the fields fixed at creation: id,
route, device and customer fields, intake fields, outbound fields,
created_at and creator are identical before and after the update. -/
theorem C8_update_frame
    (transfer : RepairTransfer) (updateForm : StatusUpdateForm)
    (user : User) (today now : String) :
    (applyStatusUpdate transfer updateForm user today now).id = transfer.id ∧
    (applyStatusUpdate transfer updateForm user today now).branch_from =
      transfer.branch_from ∧
    (applyStatusUpdate transfer updateForm user today now).branch_to =
      transfer.branch_to ∧
    (applyStatusUpdate transfer updateForm user today now).customer_name =
      transfer.customer_name ∧
    (applyStatusUpdate transfer updateForm user today now).phone_model =
      transfer.phone_model ∧
    (applyStatusUpdate transfer updateForm user today now).imei = transfer.imei ∧
    (applyStatusUpdate transfer updateForm user today now).passcode =
      transfer.passcode ∧
    (applyStatusUpdate transfer updateForm user today now).problem_description =
      transfer.problem_description ∧
    (applyStatusUpdate transfer updateForm user today now).staff_receive_name =
      transfer.staff_receive_name ∧
    (applyStatusUpdate transfer updateForm user today now).date_from_branch =
      transfer.date_from_branch ∧
    (applyStatusUpdate transfer updateForm user today now).staff_send_name =
      transfer.staff_send_name ∧
    (applyStatusUpdate transfer updateForm user today now).date_sent_to_branch =
      transfer.date_sent_to_branch ∧
    (applyStatusUpdate transfer updateForm user today now).created_at =
      transfer.created_at ∧
    (applyStatusUpdate transfer updateForm user today now).user_id =
      transfer.user_id :=
  ⟨rfl, rfl, rfl, rfl, rfl, rfl, rfl, rfl, rfl, rfl, rfl, rfl, rfl, rfl⟩

/-- C10: an update with an empty remarks string keeps the previous record
remarks, while the appended log entry stores the empty remarks, so the two
differ whenever the previous remarks was non-empty. -/
theorem C10_empty_remarks_divergence
    (transfer : RepairTransfer) (updateForm : StatusUpdateForm)
    (user : User) (lid today now : String)
    (hEmpty : updateForm.remarks = "") :
    (applyStatusUpdate transfer updateForm user today now).remarks =
      transfer.remarks ∧
    (statusUpdateLog user transfer updateForm lid now).remarks = some "" ∧
    ∀ p : String, transfer.remarks = some p → p ≠ "" →
      (applyStatusUpdate transfer updateForm user today now).remarks ≠
        (statusUpdateLog user transfer updateForm lid now).remarks := by
  have h1 : (applyStatusUpdate transfer updateForm user today now).remarks =
      transfer.remarks := by
    unfold applyStatusUpdate applyUpdateData buildUpdateData
    cases h : transfer.remarks <;> simp [hEmpty, h]
  refine ⟨h1, by simp [statusUpdateLog, hEmpty], ?_⟩
  intro p hp hne
  rw [h1, hp]
  simp [statusUpdateLog, hEmpty, hne]

/-- Witness for C10: updating the remarked sample record with an empty
remarks string leaves the record remarks different from the log remarks. -/
theorem C10_empty_remarks_divergence_witness :
    (applyStatusUpdate samplePendingRemarked sampleReceivedFormNoTech sampleAdmin
        "2025-02-03" "ts2").remarks ≠
      (statusUpdateLog sampleAdmin samplePendingRemarked sampleReceivedFormNoTech
        "l3" "ts2").remarks :=
  (C10_empty_remarks_divergence samplePendingRemarked sampleReceivedFormNoTech
    sampleAdmin "l3" "2025-02-03" "ts2" rfl).2.2 "old note" rfl (by decide)

/-- C5: every record produced by the role-scoped listing is visible to the
caller under the read-scoping rule, and a direct access by id hands out a
record only when it is visible to the caller, for each of the three roles
of the source union type. -/
theorem C5_read_scoping :
    (∀ (u : User) (db : DB) (t : RepairTransfer),
        t ∈ loadTransfers u db → visibleTo u t) ∧
    (∀ (u : User) (db : DB) (transferId : String) (t : RepairTransfer),
        (u.role = "Admin" ∨ u.role = "HQ Staff" ∨ u.role = "Technician") →
        loadTransferData u transferId db = some t → visibleTo u t) := by
  constructor
  · intro u db t ht
    unfold loadTransfers at ht
    by_cases hA : u.role = "Admin"
    · exact Or.inl hA
    · by_cases hH : u.role = "HQ Staff"
      · simp [hA, hH, List.mem_filter] at ht
        exact Or.inr (Or.inl ⟨hH, ht.2⟩)
      · by_cases hT : u.role = "Technician"
        · simp [hA, hH, hT, List.mem_filter] at ht
          exact Or.inr (Or.inr ⟨hT, ht.2⟩)
        · simp [hA, hH, hT] at ht
  · intro u db transferId t hrole hload
    unfold loadTransferData at hload
    cases hhead : (db.repairTransfers.filter (fun x => x.id == transferId)).head? with
    | none => rw [hhead] at hload; simp at hload
    | some td =>
      rw [hhead] at hload
      by_cases h1 : u.role = "HQ Staff" ∧ td.branch_from ≠ u.branch
      · simp [h1] at hload
      · by_cases h2 : u.role = "Technician" ∧ td.branch_to ≠ u.branch
        · simp [h1, h2] at hload
        · simp only [h1, h2, if_false, Option.some_inj] at hload
          subst hload
          rcases hrole with hA | hH | hT
          · exact Or.inl hA
          · push_neg at h1
            exact Or.inr (Or.inl ⟨hH, h1 hH⟩)
          · push_neg at h2
            exact Or.inr (Or.inr ⟨hT, h2 hT⟩)

/-- Witness for C5: the sample Technician at Kluang obtains the sample
pending record by direct access and it is indeed visible to them. -/
theorem C5_read_scoping_witness :
    visibleTo sampleTech samplePending :=
  C5_read_scoping.2 sampleTech ⟨[samplePending], []⟩ "t1" samplePending
    (Or.inr (Or.inr rfl)) (by decide)

/-- C6 counterexample: for the sample Technician at Kluang and the sample
pending record routed to Kluang, the status-keyed canUpdateStatus returns
false while the branch-keyed canUpdateStatus returns true, so the two
implementations do not always return the same boolean. -/
theorem C6_counterexample :
    Status.canUpdateStatus sampleTech.role samplePending.status ≠
      Auth.canUpdateStatus (some sampleTech) samplePending := by
  decide

/-- C6 amended: the two canUpdateStatus implementations agree whenever the
user role is Admin; they do not agree for every user and record. -/
theorem C6_agree_on_admin (u : User) (t : RepairTransfer)
    (h : u.role = "Admin") :
    Status.canUpdateStatus u.role t.status =
      Auth.canUpdateStatus (some u) t := by
  simp [Status.canUpdateStatus, Auth.canUpdateStatus, h]

/-- Witness for C6 at the sample Admin and the sample pending record. -/
theorem C6_agree_on_admin_witness :
    Status.canUpdateStatus sampleAdmin.role samplePending.status =
      Auth.canUpdateStatus (some sampleAdmin) samplePending :=
  C6_agree_on_admin sampleAdmin samplePending rfl

end BoardRepair
